import Mathlib

/-!
Shallow embedding of the WebSocket session hub (package `websocket` of
CharlesBases/library): the subject matcher, the session registry (`pool`),
the per-session state, the ingress listener's admission checks, and the
session actor's control loop (`serve`).

Go strings are modelled as `List Char`; Go's `map[subject]bool` keyed set
is modelled as a duplicate-free list of keys (`mapSet` / `mapDel` mirror
map assignment and `delete`); channels are modelled by the lists of
messages a handler emits on them; the session registry's
`map[sessionID]struct{}` is a `Finset` of ids. Time is an abstract `Nat`
stamp (the code formats `time.Now()`; only the value's presence matters
here).
-/

/-- `type subject string` — a subscription pattern / topic. -/
abbrev subject := List Char

/-- `subject.verify` (part_000:204-217): pattern `sub` against topic `tar`.
`"*"` matches everything; exact equality matches; a pattern whose last
character is `*` (Go `strings.HasSuffix(sub, "*")`) matches when the topic
starts with the pattern minus that trailing `*`
(`strings.TrimSuffix` + `strings.HasPrefix`); otherwise no match. -/
def subject.verify (sub tar : subject) : Bool :=
  if sub = ['*'] then true
  else if sub = tar then true
  else if sub.getLast? = some '*' then decide (sub.dropLast <+: tar)
  else false

/-- `type sessionID string`. -/
abbrev sessionID := String

/-- `pb.Method` — the closed method enumeration of the wire envelope
(0:PING, 1:SUBSCRIBE, 2:UNSUBSCRIBE, 3:DISCONNECT, 4:BROADCAST). -/
inductive pb.Method
  | PING
  | SUBSCRIBE
  | UNSUBSCRIBE
  | DISCONNECT
  | BROADCAST
deriving DecidableEq

/-- `WebSocketBroadcast` — a published event: topic plus the delivery
timestamp assigned in `serve` (part_000:99). -/
structure WebSocketBroadcast where
  Subject : subject
  Time : Nat
deriving DecidableEq

/-- The `Data` payload of a response: empty (error responses), a formatted
timestamp (PING reply), the current subscription list (SUBSCRIBE /
UNSUBSCRIBE reply), or a broadcast event (BROADCAST push). -/
inductive RespData
  | empty
  | time (t : Nat)
  | topics (l : List subject)
  | event (b : WebSocketBroadcast)
deriving DecidableEq

/-- `WebSocketResponse{ID, Code, Message, Method, Data}`. -/
structure WebSocketResponse where
  ID : sessionID
  Code : Nat
  Message : String
  Method : pb.Method
  Data : RespData
deriving DecidableEq

/-- Decoded contents of a request's `*json.RawMessage` params: either a
well-formed subject list (what `json.Unmarshal` into `[]subject` yields)
or malformed bytes on which `Unmarshal` errors. -/
inductive ParamsVal
  | subjects (subs : List subject)
  | malformed
deriving DecidableEq

/-- `WebSocketRequest{ID, Method, Params}`; `Params = none` is a nil
`*json.RawMessage`. -/
structure WebSocketRequest where
  ID : sessionID
  Method : pb.Method
  Params : Option ParamsVal
deriving DecidableEq

/-- `session` (part_000:36-56) — the per-connection mutable state, plus
bookkeeping flags for the one-shot teardown: `onceDone` is the
`sync.Once` having fired, the `…Closed` flags record which channels were
`close`d, `connIsNil` records `session.conn = nil`, and `panicked` marks a
nil-params dereference in `subscribe`/`unsubscribe`. -/
structure session where
  id : sessionID
  subscriptions : List subject
  ready : Bool
  closed : Bool
  onceDone : Bool
  closingClosed : Bool
  requestClosed : Bool
  responseClosed : Bool
  broadcastClosed : Bool
  connIsNil : Bool
  panicked : Bool
deriving DecidableEq

/-- Go map assignment `m[k] = true` on a keyed set: a no-op when the key
is present, otherwise the key is added. -/
def mapSet (m : List subject) (k : subject) : List subject :=
  if k ∈ m then m else m ++ [k]

/-- Go `delete(m, k)` on a keyed set: every occurrence of the key is
removed (a duplicate-free list carries at most one). -/
def mapDel (m : List subject) (k : subject) : List subject :=
  m.filter (fun x => decide (x ≠ k))

/-- `session.normal` (part_000:183-191): a code-200 response with
`http.StatusText(200) = "OK"`. -/
def session.normal (id : sessionID) (method : pb.Method) (data : RespData) :
    WebSocketResponse :=
  { ID := id, Code := 200, Message := "OK", Method := method, Data := data }

/-- `session.error` (part_000:194-200): an error response; `Method` and
`Data` are left at their Go zero values (`Method(0) = PING`, nil data). -/
def session.error (id : sessionID) (errCode : Nat) (errMsg : String) :
    WebSocketResponse :=
  { ID := id, Code := errCode, Message := errMsg, Method := pb.Method.PING,
    Data := RespData.empty }

theorem subject_verify_test1 : subject.verify "foo*".toList "foobar".toList = true := by decide
theorem subject_verify_test2 : subject.verify "foo*".toList "bar".toList = false := by decide
theorem subject_verify_test3 : subject.verify "foo".toList "foobar".toList = false := by decide

/-- C1: `subject.verify` returns true exactly when the pattern is `"*"`,
or equals the topic, or ends in `'*'` and the topic starts with the
pattern minus its trailing `'*'`; false in every other case. -/
theorem subject_verify_characterization (sub tar : subject) :
    subject.verify sub tar = true ↔
      sub = ['*'] ∨ sub = tar ∨
        (sub.getLast? = some '*' ∧ sub.dropLast <+: tar) := by
  unfold subject.verify
  split
  · simp_all
  · split
    · simp_all
    · split
      · simp_all
      · simp_all

/-- `pool.verifySession` (part_000:326-332): read-locked membership test
on the registry's keyed set. -/
def pool.verifySession (p : Finset sessionID) (id : sessionID) : Bool :=
  decide (id ∈ p)

/-- `pool.createSession` (part_000:335-343): the freshly generated
`uuid.New().String()` is an input here (id generation is external
randomness); the id is inserted into the registry and returned. -/
def pool.createSession (p : Finset sessionID) (id : sessionID) : Finset sessionID :=
  insert id p

/-- `pool.dropSession` (part_000:346-350): write-locked `delete`. -/
def pool.dropSession (p : Finset sessionID) (id : sessionID) : Finset sessionID :=
  p.erase id

/-- `session.write` (part_000:171-180): the transport is modelled as the
list of frames written so far; when ready, the response (with `ID`
stamped) is written and `conn.WriteJSON`'s result returned (success
modelled as `none`); when not ready, the frame list is untouched and the
function returns `nil`. -/
def session.write (s : session) (conn : List WebSocketResponse)
    (v : WebSocketResponse) : List WebSocketResponse × Option String :=
  if s.ready then (conn ++ [{ v with ID := s.id }], none)
  else (conn, none)

/-- `session.topics` (part_000:234-244): the subscription keys as a list. -/
def session.topics (s : session) : List subject :=
  s.subscriptions

/-- `session.ping` (part_000:59-65): when not closed, set `ready` and
enqueue a timestamped normal response on the response channel. -/
def session.ping (s : session) (now : Nat) : session × List WebSocketResponse :=
  if ¬ s.closed then
    ({ s with ready := true }, [session.normal s.id pb.Method.PING (RespData.time now)])
  else (s, [])

/-- `session.subscribe` (part_000:247-264): on decode failure enqueue an
error and signal close (the `Bool` is the `session.close()` call);
otherwise add every subject to the set and reply with the full current
subscription list. -/
def session.subscribe (s : session) (pv : ParamsVal) :
    session × List WebSocketResponse × Bool :=
  match pv with
  | ParamsVal.malformed =>
      (s, [session.error s.id 400 "unmarshal error"], true)
  | ParamsVal.subjects subs =>
      let s' := { s with subscriptions := subs.foldl mapSet s.subscriptions }
      (s', [session.normal s'.id pb.Method.SUBSCRIBE (RespData.topics (session.topics s'))], false)

/-- `session.unsubscribe` (part_000:267-285): same decode-failure
handling; otherwise delete every named subject and reply with the full
current subscription list. -/
def session.unsubscribe (s : session) (pv : ParamsVal) :
    session × List WebSocketResponse × Bool :=
  match pv with
  | ParamsVal.malformed =>
      (s, [session.error s.id 400 "unmarshal error"], true)
  | ParamsVal.subjects tops =>
      let s' := { s with subscriptions := tops.foldl mapDel s.subscriptions }
      (s', [session.normal s'.id pb.Method.UNSUBSCRIBE (RespData.topics (session.topics s'))], false)

/-- One scan of the subscription set during broadcast dispatch
(part_000:223-228): deliver on the first matching pattern only (`break`),
as a normal BROADCAST response. -/
def session.eventScan (s : session) (b : WebSocketBroadcast) :
    List subject → List WebSocketResponse
  | [] => []
  | sub :: rest =>
      if subject.verify sub b.Subject then
        [session.normal s.id pb.Method.BROADCAST (RespData.event b)]
      else session.eventScan s b rest

/-- `session.event` (part_000:220-231): only a ready session scans its
subscriptions. -/
def session.event (s : session) (b : WebSocketBroadcast) : List WebSocketResponse :=
  if s.ready then session.eventScan s b s.subscriptions else []

/-- One operation performed inside the teardown body: a ghost log entry
used to count how often each resource-releasing step runs. -/
inductive TearOp
  | dropSess
  | closeClosing
  | closeRequest
  | closeResponse
  | closeBroadcast
  | closeConn
deriving DecidableEq

/-- `session.disconnect` (part_000:293-315): the `sync.Once` guard —
when it already fired (`onceDone`) nothing happens; otherwise the body
runs once: `ready := false`, `closed := true`, deregister from the
registry, close the closing channel and the three queues, and close the
transport when it is non-nil. The returned `List TearOp` logs the
operations the call performed. -/
def session.disconnect (s : session) (p : Finset sessionID) :
    session × Finset sessionID × List TearOp :=
  if s.onceDone then (s, p, [])
  else
    ({ s with
        ready := false, closed := true, onceDone := true,
        closingClosed := true, requestClosed := true,
        responseClosed := true, broadcastClosed := true, connIsNil := true },
      pool.dropSession p s.id,
      [TearOp.dropSess, TearOp.closeClosing, TearOp.closeRequest,
        TearOp.closeResponse, TearOp.closeBroadcast]
        ++ (if s.connIsNil then [] else [TearOp.closeConn]))

/-- `n` successive invocations of `session.disconnect` (as triggered by
repeated/concurrent close signals, serialized by the `sync.Once`), with
the performed teardown operations accumulated. -/
def disconnectN (s : session) (p : Finset sessionID) :
    Nat → session × Finset sessionID × List TearOp
  | 0 => (s, p, [])
  | n + 1 =>
      let r := session.disconnect s p
      let r' := disconnectN r.1 r.2.1 n
      (r'.1, r'.2.1, r.2.2 ++ r'.2.2)

/-- Outcome of one ingress-listener iteration on a decoded request
(part_000:129-157): stop after triggering `session.close()`; stop without
closing; emit and keep listening; or forward the request to the actor's
inbound queue. -/
inductive ListenResult
  | stopAndClose
  | stopOnly
  | continueLoop
  | forward (r : WebSocketRequest)
deriving DecidableEq

/-- `session.listening`, admission portion (part_000:129-157): the checks
applied to every successfully decoded request, in source order, paired
with the error responses enqueued. -/
def session.listening (p : Finset sessionID) (s : session)
    (r : WebSocketRequest) : List WebSocketResponse × ListenResult :=
  if ¬ pool.verifySession p r.ID then
    ([session.error s.id 400 "invalid session id"], ListenResult.stopAndClose)
  else if s.closed then
    ([session.error s.id 400 "connect closed"], ListenResult.stopOnly)
  else if r.Method = pb.Method.PING then
    ([], ListenResult.forward r)
  else if ¬ s.ready then
    ([session.error s.id 400 "connect not ready"], ListenResult.continueLoop)
  else if r.Params = none then
    ([session.error s.id 400 "params cannot be empty."], ListenResult.continueLoop)
  else ([], ListenResult.forward r)

/-- The five arms of the `select` in `serve` (part_000:71-105):
`timeout` is `<-time.After(heartbeat)` firing — the timer is re-created
(relative deadline) on every loop iteration, so a `timeout` event may
occur at any iteration; the other arms are receives on the three queues
and on the closing channel. -/
inductive ServeEvent
  | timeout
  | request (r : WebSocketRequest)
  | response (v : WebSocketResponse)
  | broadcast (b : WebSocketBroadcast)
  | closing
deriving DecidableEq

/-- The state the control loop acts on: the session, the global registry,
the frames written to the transport, the accumulated ghost teardown log,
and the number of tokens sent on the closing channel by
`session.close()` calls. -/
structure World where
  sess : session
  pool : Finset sessionID
  conn : List WebSocketResponse
  ops : List TearOp
  closeSignals : Nat
deriving DecidableEq

/-- One iteration of `serve` (part_000:71-105) on one select arm, at
current time `now`; the second component is the list of responses the
iteration enqueues on the response channel. A `SUBSCRIBE`/`UNSUBSCRIBE`
with nil params (unreachable through the listener) would dereference a
nil `*json.RawMessage`: modelled by the `panicked` sink flag. -/
def serveStep (w : World) (e : ServeEvent) (now : Nat) :
    World × List WebSocketResponse :=
  match e with
  | ServeEvent.timeout =>
      if w.sess.ready then
        ({ w with sess := { w.sess with ready := false } }, [])
      else (w, [])
  | ServeEvent.request r =>
      match r.Method with
      | pb.Method.PING =>
          let pr := session.ping w.sess now
          ({ w with sess := pr.1 }, pr.2)
      | pb.Method.SUBSCRIBE =>
          match r.Params with
          | some pv =>
              let sr := session.subscribe w.sess pv
              ({ w with
                  sess := sr.1,
                  closeSignals := w.closeSignals + (if sr.2.2 then 1 else 0) },
                sr.2.1)
          | none => ({ w with sess := { w.sess with panicked := true } }, [])
      | pb.Method.UNSUBSCRIBE =>
          match r.Params with
          | some pv =>
              let sr := session.unsubscribe w.sess pv
              ({ w with
                  sess := sr.1,
                  closeSignals := w.closeSignals + (if sr.2.2 then 1 else 0) },
                sr.2.1)
          | none => ({ w with sess := { w.sess with panicked := true } }, [])
      | pb.Method.DISCONNECT =>
          ({ w with closeSignals := w.closeSignals + 1 }, [])
      | pb.Method.BROADCAST =>
          (w, [session.error w.sess.id 400 "invalid method"])
  | ServeEvent.response v =>
      let wr := session.write w.sess w.conn v
      ({ w with conn := wr.1 }, [])
  | ServeEvent.broadcast b =>
      (w, session.event w.sess { b with Time := now })
  | ServeEvent.closing =>
      let dr := session.disconnect w.sess w.pool
      ({ w with sess := dr.1, pool := dr.2.1, ops := w.ops ++ dr.2.2 }, [])

/-- Modelled from the spec: the session constructor is not under `src/`
(only the `session` struct is); per the spec, a fresh session is not
ready, not closed, with an empty subscription set — the Go zero values of
the struct's fields. -/
def session.init (id : sessionID) : session :=
  { id := id, subscriptions := [], ready := false, closed := false,
    onceDone := false, closingClosed := false, requestClosed := false,
    responseClosed := false, broadcastClosed := false, connIsNil := false,
    panicked := false }

/-- A freshly started control loop over a fresh session. -/
def World.init (id : sessionID) (p : Finset sessionID) : World :=
  { sess := session.init id, pool := p, conn := [], ops := [], closeSignals := 0 }

/-- Run the control loop over a list of timed events. -/
def runServe (w : World) (es : List (ServeEvent × Nat)) : World :=
  es.foldl (fun w en => (serveStep w en.1 en.2).1) w

theorem eventScan_length (s : session) (b : WebSocketBroadcast) (l : List subject) :
    (session.eventScan s b l).length =
      if l.any (fun sub => subject.verify sub b.Subject) then 1 else 0 := by
  induction l with
  | nil => simp [session.eventScan]
  | cons x xs ih =>
      by_cases h : subject.verify x b.Subject
      · simp [session.eventScan, h]
      · simp [session.eventScan, h, ih]

/-- C2: a broadcast event dequeued by the control loop yields exactly one
enqueued broadcast response when the session is ready and at least one
subscribed pattern matches the event's subject (one response even when
several patterns match), and zero responses otherwise — in particular
zero when the session is not ready. -/
theorem broadcast_at_most_once (w : World) (b : WebSocketBroadcast) (now : Nat) :
    (serveStep w (ServeEvent.broadcast b) now).2.length =
      if w.sess.ready = true ∧
          w.sess.subscriptions.any (fun sub => subject.verify sub b.Subject) = true
      then 1 else 0 := by
  show (session.event w.sess { b with Time := now }).length = _
  unfold session.event
  by_cases hr : w.sess.ready
  · rw [if_pos hr, eventScan_length]
    by_cases hm : w.sess.subscriptions.any (fun sub => subject.verify sub b.Subject)
    · simp [hm, hr]
    · simp_all
  · simp_all

theorem session_ready_false_eta (s : session) (h : s.ready = false) :
    { s with ready := false } = s := by
  cases s
  simp_all

/-- C5: the heartbeat timeout arm leaves the session not ready and does
nothing else — the whole loop state is unchanged except `ready := false`
(so it closes nothing, runs no teardown, and emits no response); the
timeout is a fresh `time.After` on every loop iteration, so this holds at
whichever iteration the interval elapses. -/
theorem heartbeat_soft_timeout (w : World) (now : Nat) :
    (serveStep w ServeEvent.timeout now).1.sess.ready = false ∧
    (serveStep w ServeEvent.timeout now).1 =
      { w with sess := { w.sess with ready := false } } ∧
    (serveStep w ServeEvent.timeout now).2 = [] := by
  unfold serveStep
  by_cases hr : w.sess.ready
  · simp [hr]
  · have hr' : w.sess.ready = false := by simpa using hr
    rw [session_ready_false_eta w.sess hr']
    simp [hr']

/-- C8: when the session is not ready, an outbound response is silently
dropped — `session.write` returns `nil` without touching the transport's
frame list, and the control loop's response arm leaves the whole state
unchanged (nothing buffered or retried) and enqueues nothing. -/
theorem write_dropped_when_not_ready (s : session) (conn : List WebSocketResponse)
    (v : WebSocketResponse) (w : World) (now : Nat)
    (h : s.ready = false) (hw : w.sess.ready = false) :
    session.write s conn v = (conn, none) ∧
    serveStep w (ServeEvent.response v) now = (w, []) := by
  constructor
  · unfold session.write
    simp [h]
  · unfold serveStep session.write
    simp [hw]

theorem write_dropped_when_not_ready_witness :
    (session.init "a").ready = false ∧
    (World.init "a" ∅).sess.ready = false ∧
    session.write (session.init "a") [] (session.error "a" 400 "e") = ([], none) ∧
    serveStep (World.init "a" ∅) (ServeEvent.response (session.error "a" 400 "e")) 0 =
      (World.init "a" ∅, []) := by
  refine ⟨rfl, rfl, ?_⟩
  exact write_dropped_when_not_ready (session.init "a") [] (session.error "a" 400 "e")
    (World.init "a" ∅) 0 rfl rfl

/-- C7: SUBSCRIBE and UNSUBSCRIBE are idempotent on the subscription set:
adding an already-present pattern and deleting an absent one leave the
set unchanged, subscribing the same pattern twice starting from an empty
set yields a set of size 1, and both operations reply with the full
current subscription list on success. -/
theorem subscribe_unsubscribe_idempotent (s : session) (sub1 sub2 : subject)
    (h1 : sub1 ∈ s.subscriptions) (h2 : sub2 ∉ s.subscriptions) :
    (session.subscribe s (ParamsVal.subjects [sub1])).1.subscriptions
      = s.subscriptions ∧
    (session.subscribe
        (session.subscribe { s with subscriptions := [] }
          (ParamsVal.subjects [sub2])).1
        (ParamsVal.subjects [sub2])).1.subscriptions.length = 1 ∧
    (session.unsubscribe s (ParamsVal.subjects [sub2])).1.subscriptions
      = s.subscriptions ∧
    (∀ subs, (session.subscribe s (ParamsVal.subjects subs)).2.1 =
      [session.normal s.id pb.Method.SUBSCRIBE
        (RespData.topics
          (session.subscribe s (ParamsVal.subjects subs)).1.subscriptions)]) ∧
    (∀ subs, (session.unsubscribe s (ParamsVal.subjects subs)).2.1 =
      [session.normal s.id pb.Method.UNSUBSCRIBE
        (RespData.topics
          (session.unsubscribe s (ParamsVal.subjects subs)).1.subscriptions)]) := by
  refine ⟨?_, ?_, ?_, ?_, ?_⟩
  · simp [session.subscribe, mapSet, h1]
  · simp [session.subscribe, mapSet]
  · simp only [session.unsubscribe]
    have : mapDel s.subscriptions sub2 = s.subscriptions := by
      unfold mapDel
      refine List.filter_eq_self.mpr ?_
      intro x hx
      simp only [decide_eq_true_eq]
      intro hxe
      exact h2 (hxe ▸ hx)
    simp [this]
  · intro subs
    simp [session.subscribe, session.topics]
  · intro subs
    simp [session.unsubscribe, session.topics]

theorem subscribe_unsubscribe_idempotent_witness :
    "a.b".toList ∈ [ "a.b".toList ] ∧ "x".toList ∉ [ "a.b".toList ] ∧
    (session.subscribe { session.init "s" with subscriptions := ["a.b".toList] }
        (ParamsVal.subjects ["a.b".toList])).1.subscriptions = ["a.b".toList] ∧
    (session.unsubscribe { session.init "s" with subscriptions := ["a.b".toList] }
        (ParamsVal.subjects ["x".toList])).1.subscriptions = ["a.b".toList] := by
  refine ⟨by decide, by decide, ?_, ?_⟩
  · exact (subscribe_unsubscribe_idempotent
      { session.init "s" with subscriptions := ["a.b".toList] }
      "a.b".toList "x".toList (by decide) (by decide)).1
  · exact (subscribe_unsubscribe_idempotent
      { session.init "s" with subscriptions := ["a.b".toList] }
      "a.b".toList "x".toList (by decide) (by decide)).2.2.1

/-- C9: the Session Registry — inserting a (fresh) id makes `verify` of
that id true, and it stays true under other ids being created or dropped;
`verify` is a pure membership test; dropping an absent id is a no-op;
`drop` is idempotent; and after `drop id`, `verify id` is false. The
freshness of the generated uuid is an assumption on the external
generator, taken here as the hypothesis `id ∉ p`. -/
theorem pool_registry_spec (p : Finset sessionID) (id id2 : sessionID)
    (hfresh : id ∉ p) (hne : id ≠ id2) :
    pool.verifySession (pool.createSession p id) id = true ∧
    (∀ q i, pool.verifySession q i = true ↔ i ∈ q) ∧
    pool.dropSession p id = p ∧
    (∀ q i, pool.dropSession (pool.dropSession q i) i = pool.dropSession q i) ∧
    (∀ q i, pool.verifySession (pool.dropSession q i) i = false) ∧
    pool.verifySession (pool.dropSession (pool.createSession p id) id2) id = true ∧
    pool.verifySession (pool.createSession (pool.createSession p id) id2) id = true := by
  refine ⟨?_, ?_, ?_, ?_, ?_, ?_, ?_⟩
  · simp [pool.verifySession, pool.createSession]
  · intro q i
    simp [pool.verifySession]
  · simp [pool.dropSession, Finset.erase_eq_self.mpr hfresh]
  · intro q i
    simp [pool.dropSession, Finset.erase_idem]
  · intro q i
    simp [pool.verifySession, pool.dropSession]
  · simp [pool.verifySession, pool.dropSession, pool.createSession,
      Finset.mem_erase, hne]
  · simp [pool.verifySession, pool.createSession]

theorem pool_registry_spec_witness :
    ("a" : sessionID) ∉ (∅ : Finset sessionID) ∧ ("a" : sessionID) ≠ "b" ∧
    pool.verifySession (pool.createSession ∅ "a") "a" = true ∧
    pool.dropSession (∅ : Finset sessionID) "a" = ∅ ∧
    pool.verifySession (pool.dropSession (pool.createSession ∅ "a") "b") "a" = true := by
  have h := pool_registry_spec (∅ : Finset sessionID) "a" "b"
    (Finset.not_mem_empty "a") (by simp)
  exact ⟨Finset.not_mem_empty "a", by simp, h.1, h.2.2.1, h.2.2.2.2.2.1⟩

theorem disconnectN_of_onceDone (n : Nat) (s : session) (p : Finset sessionID)
    (h : s.onceDone = true) :
    disconnectN s p n = (s, p, []) := by
  induction n generalizing s p with
  | zero => rfl
  | succ m ih =>
      unfold disconnectN session.disconnect
      simp [h, ih s p h]

/-- C3: invoking the teardown any positive number of times (repeated or
concurrent triggers are serialized by the `sync.Once`) from a fresh
session is the same as invoking it once: the registry deregistration
happens exactly once, the closing channel, the three queues, and the
transport are each closed exactly once (so nothing is ever double-closed),
and the session ends not ready and closed. -/
theorem teardown_exactly_once (s : session) (p : Finset sessionID) (n : Nat)
    (h0 : s.onceDone = false) (h1 : s.connIsNil = false) (hn : 1 ≤ n) :
    disconnectN s p n = session.disconnect s p ∧
    (disconnectN s p n).2.2 =
      [TearOp.dropSess, TearOp.closeClosing, TearOp.closeRequest,
        TearOp.closeResponse, TearOp.closeBroadcast, TearOp.closeConn] ∧
    ((disconnectN s p n).2.2).count TearOp.dropSess = 1 ∧
    (disconnectN s p n).2.1 = pool.dropSession p s.id ∧
    (disconnectN s p n).1.ready = false ∧
    (disconnectN s p n).1.closed = true := by
  obtain ⟨m, rfl⟩ : ∃ m, n = m + 1 := ⟨n - 1, (Nat.succ_pred_eq_of_pos hn).symm⟩
  have hstep : disconnectN s p (m + 1) = session.disconnect s p := by
    have hfired : (session.disconnect s p).1.onceDone = true := by
      unfold session.disconnect
      simp [h0]
    unfold disconnectN
    simp [disconnectN_of_onceDone m _ _ hfired]
  refine ⟨hstep, ?_, ?_, ?_, ?_, ?_⟩ <;>
    rw [hstep] <;> unfold session.disconnect <;> simp [h0, h1]

theorem teardown_exactly_once_witness :
    (session.init "a").onceDone = false ∧ (session.init "a").connIsNil = false ∧
    1 ≤ 2 ∧
    disconnectN (session.init "a") {"a"} 2 = session.disconnect (session.init "a") {"a"} ∧
    ((disconnectN (session.init "a") {"a"} 2).2.2).count TearOp.dropSess = 1 ∧
    (disconnectN (session.init "a") {"a"} 2).2.1 = pool.dropSession {"a"} "a" := by
  have h := teardown_exactly_once (session.init "a") {"a"} 2 rfl rfl (by decide)
  exact ⟨rfl, rfl, by decide, h.1, h.2.2.1, h.2.2.2.1⟩

/-- C6: the ingress listener's admission checks on every decoded request,
in order: an unverified session id is fatal (error response, then close);
a closed session gets an error response and the listener stops without
another close; PING bypasses the readiness and params checks and is
forwarded; a non-PING method while not ready is a continue-level error;
a non-PING request with nil params is a continue-level error; a request
passing every check is forwarded to the inbound queue. -/
theorem listening_admission (p : Finset sessionID) (s : session)
    (r : WebSocketRequest) :
    (pool.verifySession p r.ID = false →
      session.listening p s r =
        ([session.error s.id 400 "invalid session id"], ListenResult.stopAndClose)) ∧
    (pool.verifySession p r.ID = true → s.closed = true →
      session.listening p s r =
        ([session.error s.id 400 "connect closed"], ListenResult.stopOnly)) ∧
    (pool.verifySession p r.ID = true → s.closed = false →
      r.Method = pb.Method.PING →
      session.listening p s r = ([], ListenResult.forward r)) ∧
    (pool.verifySession p r.ID = true → s.closed = false →
      r.Method ≠ pb.Method.PING → s.ready = false →
      session.listening p s r =
        ([session.error s.id 400 "connect not ready"], ListenResult.continueLoop)) ∧
    (pool.verifySession p r.ID = true → s.closed = false →
      r.Method ≠ pb.Method.PING → s.ready = true → r.Params = none →
      session.listening p s r =
        ([session.error s.id 400 "params cannot be empty."], ListenResult.continueLoop)) ∧
    (pool.verifySession p r.ID = true → s.closed = false →
      r.Method ≠ pb.Method.PING → s.ready = true →
      ∀ pv, r.Params = some pv →
        session.listening p s r = ([], ListenResult.forward r)) := by
  refine ⟨?_, ?_, ?_, ?_, ?_, ?_⟩ <;>
    unfold session.listening <;> intros <;> simp_all

theorem listening_admission_witness :
    session.listening {"a"} (session.init "a")
        { ID := "b", Method := pb.Method.SUBSCRIBE, Params := none } =
      ([session.error "a" 400 "invalid session id"], ListenResult.stopAndClose) ∧
    session.listening {"a"} { session.init "a" with closed := true }
        { ID := "a", Method := pb.Method.SUBSCRIBE, Params := none } =
      ([session.error "a" 400 "connect closed"], ListenResult.stopOnly) ∧
    session.listening {"a"} (session.init "a")
        { ID := "a", Method := pb.Method.PING, Params := none } =
      ([], ListenResult.forward { ID := "a", Method := pb.Method.PING, Params := none }) ∧
    session.listening {"a"} (session.init "a")
        { ID := "a", Method := pb.Method.SUBSCRIBE, Params := none } =
      ([session.error "a" 400 "connect not ready"], ListenResult.continueLoop) ∧
    session.listening {"a"} { session.init "a" with ready := true }
        { ID := "a", Method := pb.Method.SUBSCRIBE, Params := none } =
      ([session.error "a" 400 "params cannot be empty."], ListenResult.continueLoop) ∧
    session.listening {"a"} { session.init "a" with ready := true }
        { ID := "a", Method := pb.Method.SUBSCRIBE,
          Params := some (ParamsVal.subjects []) } =
      ([], ListenResult.forward
        { ID := "a", Method := pb.Method.SUBSCRIBE,
          Params := some (ParamsVal.subjects []) }) := by
  refine ⟨?_, ?_, ?_, ?_, ?_, ?_⟩
  · exact (listening_admission {"a"} (session.init "a") _).1 (by decide)
  · exact (listening_admission {"a"} { session.init "a" with closed := true } _).2.1
      (by decide) rfl
  · exact (listening_admission {"a"} (session.init "a") _).2.2.1
      (by decide) rfl rfl
  · exact (listening_admission {"a"} (session.init "a") _).2.2.2.1
      (by decide) rfl (by decide) rfl
  · exact (listening_admission {"a"} { session.init "a" with ready := true } _).2.2.2.2.1
      (by decide) rfl (by decide) rfl rfl
  · exact (listening_admission {"a"} { session.init "a" with ready := true } _).2.2.2.2.2
      (by decide) rfl (by decide) rfl (ParamsVal.subjects []) rfl

/-- C4: a fresh session is not ready, and from any not-ready loop state
the only event that makes it ready is a PING request on a not-closed
session; processing such a PING sets `ready` and enqueues exactly one
timestamped code-200 normal response; every other select arm (heartbeat,
SUBSCRIBE, UNSUBSCRIBE, DISCONNECT, unknown method, outbound write,
broadcast, closing/teardown) leaves a not-ready session not ready. -/
theorem ready_only_via_ping (w : World) (e : ServeEvent) (now : Nat)
    (id : sessionID) (h : w.sess.ready = false) :
    (session.init id).ready = false ∧
    ((serveStep w e now).1.sess.ready = true ↔
      (∃ r, e = ServeEvent.request r ∧ r.Method = pb.Method.PING) ∧
        w.sess.closed = false) ∧
    (∀ r : WebSocketRequest, r.Method = pb.Method.PING → w.sess.closed = false →
      serveStep w (ServeEvent.request r) now =
        ({ w with sess := { w.sess with ready := true } },
          [session.normal w.sess.id pb.Method.PING (RespData.time now)])) := by
  refine ⟨rfl, ?_, ?_⟩
  · cases e with
    | timeout =>
        by_cases hr : w.sess.ready
        · simp [serveStep, hr]
        · simp [serveStep, hr, h]
    | request r =>
        cases hm : r.Method with
        | PING =>
            by_cases hc : w.sess.closed
            · simp [serveStep, session.ping, hm, hc, h]
            · simp [serveStep, session.ping, hm, hc]
        | SUBSCRIBE =>
            cases hp : r.Params with
            | none => simp [serveStep, hm, hp, h]
            | some pv =>
                cases pv with
                | malformed => simp [serveStep, session.subscribe, hm, hp, h]
                | subjects subs => simp [serveStep, session.subscribe, hm, hp, h]
        | UNSUBSCRIBE =>
            cases hp : r.Params with
            | none => simp [serveStep, hm, hp, h]
            | some pv =>
                cases pv with
                | malformed => simp [serveStep, session.unsubscribe, hm, hp, h]
                | subjects subs => simp [serveStep, session.unsubscribe, hm, hp, h]
        | DISCONNECT => simp [serveStep, hm, h]
        | BROADCAST => simp [serveStep, hm, h]
    | response v => simp [serveStep, session.write, h]
    | broadcast b => simp [serveStep, h]
    | closing =>
        by_cases ho : w.sess.onceDone
        · simp [serveStep, session.disconnect, ho, h]
        · simp [serveStep, session.disconnect, ho]
  · intro r hm hc
    simp [serveStep, session.ping, hm, hc]

theorem ready_only_via_ping_witness :
    (World.init "a" ∅).sess.ready = false ∧
    (session.init "a").ready = false ∧
    serveStep (World.init "a" ∅)
        (ServeEvent.request { ID := "a", Method := pb.Method.PING, Params := none }) 5 =
      ({ World.init "a" ∅ with
          sess := { (World.init "a" ∅).sess with ready := true } },
        [session.normal "a" pb.Method.PING (RespData.time 5)]) := by
  have hthm := ready_only_via_ping (World.init "a" ∅) ServeEvent.timeout 5 "a" rfl
  exact ⟨rfl, hthm.1,
    hthm.2.2 { ID := "a", Method := pb.Method.PING, Params := none } rfl rfl⟩

theorem serveStep_closed_not_ready (w : World) (e : ServeEvent) (now : Nat)
    (h : w.sess.closed = true → w.sess.ready = false) :
    (serveStep w e now).1.sess.closed = true →
      (serveStep w e now).1.sess.ready = false := by
  cases e with
  | timeout =>
      by_cases hr : w.sess.ready
      · simp [serveStep, hr]
      · simp [serveStep, hr]
  | request r =>
      cases hm : r.Method with
      | PING =>
          by_cases hc : w.sess.closed
          · simpa [serveStep, session.ping, hm, hc] using h
          · simp [serveStep, session.ping, hm, hc]
      | SUBSCRIBE =>
          cases hp : r.Params with
          | none => simpa [serveStep, hm, hp] using h
          | some pv =>
              cases pv with
              | malformed => simpa [serveStep, session.subscribe, hm, hp] using h
              | subjects subs => simpa [serveStep, session.subscribe, hm, hp] using h
      | UNSUBSCRIBE =>
          cases hp : r.Params with
          | none => simpa [serveStep, hm, hp] using h
          | some pv =>
              cases pv with
              | malformed => simpa [serveStep, session.unsubscribe, hm, hp] using h
              | subjects subs => simpa [serveStep, session.unsubscribe, hm, hp] using h
      | DISCONNECT => simpa [serveStep, hm] using h
      | BROADCAST => simpa [serveStep, hm] using h
  | response v => simpa [serveStep, session.write] using h
  | broadcast b => simpa [serveStep] using h
  | closing =>
      by_cases ho : w.sess.onceDone
      · simpa [serveStep, session.disconnect, ho] using h
      · simp [serveStep, session.disconnect, ho]

theorem runServe_closed_not_ready (w : World) (es : List (ServeEvent × Nat))
    (h : w.sess.closed = true → w.sess.ready = false) :
    (runServe w es).sess.closed = true → (runServe w es).sess.ready = false := by
  induction es generalizing w with
  | nil => exact h
  | cons en rest ih =>
      have hstep := serveStep_closed_not_ready w en.1 en.2 h
      simpa [runServe, List.foldl_cons] using
        ih (serveStep w en.1 en.2).1 hstep

/-- C10: in every loop state reachable from a fresh session,
`closed = true` implies `ready = false`; the ping handler refuses to set
`ready` once the session is closed, and the teardown body leaves the
session not ready and closed. -/
theorem closed_implies_not_ready (id : sessionID) (p : Finset sessionID)
    (es : List (ServeEvent × Nat))
    (h : (runServe (World.init id p) es).sess.closed = true) :
    (runServe (World.init id p) es).sess.ready = false ∧
    (∀ s now, s.closed = true → session.ping s now = (s, [])) ∧
    (∀ s q, s.onceDone = false →
      (session.disconnect s q).1.ready = false ∧
        (session.disconnect s q).1.closed = true) := by
  refine ⟨?_, ?_, ?_⟩
  · exact runServe_closed_not_ready (World.init id p) es (by simp [World.init, session.init]) h
  · intro s now hc
    simp [session.ping, hc]
  · intro s q ho
    simp [session.disconnect, ho]

theorem closed_implies_not_ready_witness :
    (runServe (World.init "a" ∅) [(ServeEvent.closing, 0)]).sess.closed = true ∧
    (runServe (World.init "a" ∅) [(ServeEvent.closing, 0)]).sess.ready = false := by
  refine ⟨rfl, ?_⟩
  exact (closed_implies_not_ready "a" ∅ [(ServeEvent.closing, 0)] rfl).1
